import Mathlib

/-!
Shallow embedding of `pyocd/board/board.py` (class `Board`).

The `Board` class resolves a requested target-type identifier against the
global `TARGET` registry (after consulting an optional explicit CMSIS pack
and the managed pack cache), then manages an init/uninit lifecycle with
optional delegate hooks and fault-tolerant teardown.

External collaborators (the registry contents, what the pack loaders add,
whether the target or hooks raise) are modelled as parameters; the calls
the Board makes to them, and the log statements it executes, are recorded
in an event trace so that ordering and call-argument properties can be
stated.
-/

namespace PyOCD

/-- A CMSIS pack is modelled by the list of target-type names its
definitions register (`populate_targets_from_pack` merges them). -/
abbrev Pack := List String

/-- Models the session option store as consulted by `board.py`:
the `pack` entry (the value `some p` stands for the key being present
with a non-None pack), the `test_binary` option (default None) and the
`resume_on_disconnect` option (default True). -/
structure SessionOptions where
  pack : Option Pack
  test_binary : Option String
  resume_on_disconnect : Option Bool
deriving DecidableEq, Repr

/-- Read-only identity fields of the debug probe bound to the session. -/
structure Probe where
  vendor_name : String
  product_name : String
  unique_id : String
deriving DecidableEq, Repr

/-- A delegate object, modelled by which of the two optional hooks it
exposes (`hasattr` checks in `Board.init`) and whether each hook raises
when invoked. -/
structure Delegate where
  hasWillConnect : Bool
  willConnectRaises : Bool
  hasDidConnect : Bool
  didConnectRaises : Bool
deriving DecidableEq, Repr

/-- The session: option store, probe and optional session delegate. -/
structure Session where
  options : SessionOptions
  probe : Probe
  delegate : Option Delegate
deriving DecidableEq, Repr

/-- The state of a `Board` instance: the fields `__init__` assigns
(`_session`, `_target_type`, `_test_binary`, `_delegate`, `_inited`). -/
structure Board where
  session : Session
  target_type : String
  test_binary : Option String
  delegate : Option Delegate
  inited : Bool
deriving DecidableEq, Repr

/-- Observable events of `Board.__init__`: calls into the pack loaders and
the registry, and the log statements. -/
inductive ConstructEvent where
  | populateFromPack (p : Pack)
  | membershipCheck (id : String)
  | managedPackQuery (id : String)
  | registryLookup (id : String)
  | logTargetTypeInfo (id : String)
  | logGenericWarning
deriving DecidableEq, Repr

/-- Observable events of `Board.init` / `Board.uninit`: hook invocations,
target operations and log statements. -/
inductive LifeEvent where
  | willConnectCall
  | targetInitCall
  | didConnectCall
  | logDebug
  | targetDisconnectCall (resume : Bool)
  | logError
deriving DecidableEq, Repr

/-- Environment of `Board.__init__`: the initial contents of the `TARGET`
registry (as the set of registered identifiers) and, for each query
string, the identifiers `ManagedPacks.populate_target` adds. -/
structure Env where
  registry : List String
  managed : String → List String

/-- Models the Python `str.lower()` builtin used by `Board.__init__`
(character-wise lower-casing; on the ASCII identifiers involved this
agrees with `String.toLower`, but unlike it this reduces in the kernel). -/
def pyLower (s : String) : String := String.mk (s.data.map Char.toLower)

/-- Models the defaulting statement at the top of `Board.__init__`:
a None target argument is replaced by `cortex_m`. -/
def targetDefault (target : Option String) : String :=
  match target with
  | none => "cortex_m"
  | some t => t

/-- Registry contents after the explicit-pack step of `Board.__init__`:
`populate_targets_from_pack` runs exactly when the `pack` option is
present and non-None, merging the definitions of the pack
unconditionally. -/
def registryAfterPack (env : Env) (opts : SessionOptions) : List String :=
  match opts.pack with
  | some p => env.registry ++ p
  | none => env.registry

/-- Registry contents after the managed-pack step of `Board.__init__`:
`if self._target_type not in TARGET: ManagedPacks.populate_target(target)`.
Note the membership test uses the lower-cased `_target_type` while the
query is passed the original `target` string. -/
def registryAfterManaged (env : Env) (opts : SessionOptions) (target : String) : List String :=
  let r1 := registryAfterPack env opts
  if pyLower target ∈ r1 then r1 else r1 ++ env.managed target

/-- An apostrophe character, used in the error message text. -/
def sq : String := String.singleton (Char.ofNat 39)

/-- The `TargetSupportError` message raised by `Board.__init__` when the
registry lookup fails, formatted with the (normalized) target type. -/
def targetNotRecognizedMsg (t : String) : String :=
  "Target " ++ sq ++ t ++ sq ++ " not recognized. Use the " ++ sq ++
    "pyocd list --targets" ++ sq ++ " command to see all available targets."

/-- Models `Board.__init__(session, target)`: defaults an absent target to
`cortex_m`, lower-cases it, runs the explicit-pack and managed-pack
population steps, looks the type up in the registry, and either returns
the constructed board state or the `TargetSupportError` message. The
first component is the trace of external calls and log statements, in
program order. -/
def Board.construct (env : Env) (session : Session) (targetArg : Option String) :
    List ConstructEvent × Except String Board :=
  let target := targetDefault targetArg
  let target_type := pyLower target
  let packEvents : List ConstructEvent :=
    match session.options.pack with
    | some p => [ConstructEvent.populateFromPack p]
    | none => []
  let r1 := registryAfterPack env session.options
  let managedEvents : List ConstructEvent :=
    if target_type ∈ r1 then [] else [ConstructEvent.managedPackQuery target]
  let r2 := registryAfterManaged env session.options target
  let preEvents := packEvents ++ [ConstructEvent.membershipCheck target_type] ++
    managedEvents ++ [ConstructEvent.registryLookup target_type]
  if target_type ∈ r2 then
    let warnEvents : List ConstructEvent :=
      if target_type = "cortex_m" then [ConstructEvent.logGenericWarning] else []
    (preEvents ++ [ConstructEvent.logTargetTypeInfo target_type] ++ warnEvents,
      Except.ok
        { session := session
          target_type := target_type
          test_binary := session.options.test_binary
          delegate := none
          inited := false })
  else
    (preEvents, Except.error (targetNotRecognizedMsg target_type))

/-- Models the guard: the delegate is not None and has the `will_connect` attribute. -/
def hasWill : Option Delegate → Bool
  | some d => d.hasWillConnect
  | none => false

/-- Whether the `will_connect` hook raises when invoked. -/
def willRaises : Option Delegate → Bool
  | some d => d.willConnectRaises
  | none => false

/-- Models the guard: the delegate is not None and has the `did_connect` attribute. -/
def hasDid : Option Delegate → Bool
  | some d => d.hasDidConnect
  | none => false

/-- Whether the `did_connect` hook raises when invoked. -/
def didRaises : Option Delegate → Bool
  | some d => d.didConnectRaises
  | none => false

/-- The delegate in effect after the lazy-adoption step at the top of
`Board.init`: `if (self.delegate is None) and (self.session.delegate is
not None): self.delegate = self.session.delegate`. -/
def effectiveDelegate (b : Board) : Option Delegate :=
  if b.delegate.isNone && b.session.delegate.isSome then b.session.delegate else b.delegate

/-- Models `Board.init`: adopts the session delegate when the board has
none, dispatches the optional `will_connect` hook, runs `target.init()`
(whose raising behaviour is the parameter `targetInitRaises`), sets
`_inited = True`, then dispatches the optional `did_connect` hook. The
result is the new board state, the trace of events that happened, and
whether the call raised (no step of `init` catches any exception). -/
def Board.init (targetInitRaises : Bool) (b : Board) :
    Board × List LifeEvent × Bool :=
  let b1 := { b with delegate := effectiveDelegate b }
  if hasWill b1.delegate && willRaises b1.delegate then
    (b1, [LifeEvent.willConnectCall], true)
  else
    let pre : List LifeEvent :=
      if hasWill b1.delegate then [LifeEvent.willConnectCall] else []
    if targetInitRaises then
      (b1, pre ++ [LifeEvent.targetInitCall], true)
    else
      let b2 := { b1 with inited := true }
      if hasDid b2.delegate && didRaises b2.delegate then
        (b2, pre ++ [LifeEvent.targetInitCall, LifeEvent.didConnectCall], true)
      else
        let post : List LifeEvent :=
          if hasDid b2.delegate then [LifeEvent.didConnectCall] else []
        (b2, pre ++ [LifeEvent.targetInitCall] ++ post, false)

/-- Models `Board.uninit`: a no-op unless `_inited`; otherwise it reads
`resume_on_disconnect` (default `True`), calls `target.disconnect(resume)`
(whose raising behaviour is the parameter `disconnectRaises`), and clears
`_inited` only when disconnect returned; the bare `except:` turns any
failure into a `log.error` call, so `uninit` itself never raises (the
third component is always `false`). -/
def Board.uninit (disconnectRaises : Bool) (b : Board) :
    Board × List LifeEvent × Bool :=
  if b.inited then
    let resume := b.session.options.resume_on_disconnect.getD true
    if disconnectRaises then
      (b, [LifeEvent.logDebug, LifeEvent.targetDisconnectCall resume, LifeEvent.logError],
        false)
    else
      ({ b with inited := false },
        [LifeEvent.logDebug, LifeEvent.targetDisconnectCall resume], false)
  else
    (b, [], false)

/-- Models the `description` property:
`"Generic board via " + vendor_name + " " + product_name + " [" + target_type + "]"`. -/
def Board.description (b : Board) : String :=
  "Generic board via " ++ b.session.probe.vendor_name ++ " " ++
    b.session.probe.product_name ++ " [" ++ b.target_type ++ "]"

/-- A probe fixture used by the concrete counterexamples and witnesses. -/
def probe1 : Probe := ⟨"ACME", "Probe1", "0001"⟩

/-- A session fixture with empty options and no session delegate. -/
def sess1 : Session := ⟨⟨none, none, none⟩, probe1, none⟩

/-- An environment fixture: the registry holds only the generic target,
and the managed pack cache resolves exactly the query string `nrf52`. -/
def env1 : Env := ⟨["cortex_m"], fun q => if q = "nrf52" then ["nrf52"] else []⟩

/-- The board that `Board.construct env1 sess1 (some "cortex_m")` yields. -/
def boardCortex : Board := ⟨sess1, "cortex_m", none, none, false⟩

/-- A delegate exposing only a `did_connect` hook that raises. -/
def delegD : Delegate := ⟨false, false, true, true⟩

/-- A board fixture whose delegate is `delegD`. -/
def boardD : Board := ⟨sess1, "nrf52", none, some delegD, false⟩

/-- Helper: the `_inited` field after `Board.init` equals its old value,
or true exactly when the target-init step was reached (no raising
`will_connect` hook) and `target.init()` itself returned. -/
theorem init_inited_eq (ti : Bool) (b : Board) :
    (Board.init ti b).1.inited =
      (b.inited || (!(hasWill (effectiveDelegate b) && willRaises (effectiveDelegate b)) && !ti)) := by
  simp only [Board.init]
  rcases h : effectiveDelegate b with _ | ⟨w, wr, dd, dr⟩ <;>
    cases ti <;> cases hb : b.inited <;> (try cases w) <;> (try cases wr) <;>
    (try cases dd) <;> (try cases dr) <;>
    simp [hasWill, willRaises, hasDid, didRaises, hb]

/-- Helper: the event trace of `Board.init` is always one of five lists,
each listing `will_connect`, the target init step and `did_connect` in
program order. -/
theorem init_trace_cases (ti : Bool) (b : Board) :
    (Board.init ti b).2.1 = [LifeEvent.willConnectCall] ∨
    (Board.init ti b).2.1 = [LifeEvent.targetInitCall] ∨
    (Board.init ti b).2.1 = [LifeEvent.willConnectCall, LifeEvent.targetInitCall] ∨
    (Board.init ti b).2.1 = [LifeEvent.targetInitCall, LifeEvent.didConnectCall] ∨
    (Board.init ti b).2.1 =
      [LifeEvent.willConnectCall, LifeEvent.targetInitCall, LifeEvent.didConnectCall] := by
  simp only [Board.init]
  rcases h : effectiveDelegate b with _ | ⟨w, wr, dd, dr⟩ <;>
    cases ti <;> (try cases w) <;> (try cases wr) <;>
    (try cases dd) <;> (try cases dr) <;>
    simp [hasWill, willRaises, hasDid, didRaises]

/-- Helper: when the target init step itself succeeds, `Board.init`
raises exactly when a present `will_connect` or `did_connect` hook
raises. -/
theorem init_raised_eq (b : Board) :
    (Board.init false b).2.2 =
      (hasWill (effectiveDelegate b) && willRaises (effectiveDelegate b) ||
       hasDid (effectiveDelegate b) && didRaises (effectiveDelegate b)) := by
  simp only [Board.init]
  rcases h : effectiveDelegate b with _ | ⟨w, wr, dd, dr⟩ <;>
    (try cases w) <;> (try cases wr) <;> (try cases dd) <;> (try cases dr) <;>
    simp [hasWill, willRaises, hasDid, didRaises]

/-- Helper: if the `will_connect` hook does not raise, the target init
step is reached. -/
theorem init_targetInit_mem (b : Board)
    (hw : (hasWill (effectiveDelegate b) && willRaises (effectiveDelegate b)) = false) :
    LifeEvent.targetInitCall ∈ (Board.init false b).2.1 := by
  simp only [Board.init]
  rcases h : effectiveDelegate b with _ | ⟨w, wr, dd, dr⟩ <;> rw [h] at hw <;>
    (try cases w) <;> (try cases wr) <;> (try cases dd) <;> (try cases dr) <;>
    simp_all [hasWill, willRaises, hasDid, didRaises]

/-- Helper: a successfully constructed board carries the session, the
lower-cased (defaulted) target type, the `test_binary` option, no
delegate, and a cleared `_inited` flag. -/
theorem construct_ok_fields (env : Env) (session : Session) (targetArg : Option String)
    (b : Board) (hb : (Board.construct env session targetArg).2 = Except.ok b) :
    b = { session := session
          target_type := pyLower (targetDefault targetArg)
          test_binary := session.options.test_binary
          delegate := none
          inited := false } := by
  simp only [Board.construct] at hb
  split at hb
  · simp only [Except.ok.injEq] at hb
    exact hb.symm
  · simp at hb

/-- C1 (counterexample): a call to `uninit()` in which `target.disconnect`
was invoked but raised leaves the `_inited` flag true, contradicting the
claim that the flag is false after any `uninit()` call that invoked the
disconnect step. -/
theorem C1_counterexample :
    LifeEvent.targetDisconnectCall true ∈
      (Board.uninit true ⟨sess1, "nrf52", none, none, true⟩).2.1 ∧
    (Board.uninit true ⟨sess1, "nrf52", none, none, true⟩).1.inited = true := by
  decide

/-- C1 (amended): the flag starts false on every constructed board and
stays false while the target-init step has not completed (it becomes true
after `init` exactly when no present `will_connect` hook raised, the
target-init step having succeeded); `uninit()` clears it only when the
disconnect step succeeded, and leaves it set when disconnect raised. -/
theorem C1_flag (env : Env) (session : Session) (targetArg : Option String)
    (tt : String) (tb : Option String) (d : Option Delegate) :
    (∀ b, (Board.construct env session targetArg).2 = Except.ok b → b.inited = false) ∧
    (Board.init true ⟨session, tt, tb, d, false⟩).1.inited = false ∧
    (Board.init false ⟨session, tt, tb, d, false⟩).1.inited =
      !(hasWill (effectiveDelegate ⟨session, tt, tb, d, false⟩) &&
        willRaises (effectiveDelegate ⟨session, tt, tb, d, false⟩)) ∧
    (Board.uninit false ⟨session, tt, tb, d, true⟩).1.inited = false ∧
    (Board.uninit true ⟨session, tt, tb, d, true⟩).1.inited = true := by
  refine ⟨?_, ?_, ?_, ?_, ?_⟩
  · intro b hb
    rw [construct_ok_fields env session targetArg b hb]
  · simp [init_inited_eq]
  · simp [init_inited_eq]
  · simp [Board.uninit]
  · simp [Board.uninit]

/-- C1 (witness): the construction part of `C1_flag` applied to a
concrete successful construction. -/
theorem C1_flag_witness :
    (Board.construct env1 sess1 (some "cortex_m")).2 = Except.ok boardCortex ∧
    boardCortex.inited = false :=
  ⟨by rfl, (C1_flag env1 sess1 (some "cortex_m") "" none none).1 boardCortex (by rfl)⟩

/-- C2 (counterexample): for probe vendor `ACME`, product `Probe1` and
target type `nrf52` the `description` property does not return
`ACME Probe1 [nrf52]` (the code prepends `Generic board via `). -/
theorem C2_counterexample :
    Board.description ⟨sess1, "nrf52", none, none, false⟩ ≠ "ACME Probe1 [nrf52]" := by
  decide

/-- C2 (amended): `description` returns exactly
`Generic board via {vendor} {product} [{target_type}]`; with vendor
`ACME`, product `Probe1` and target type `nrf52` it returns
`Generic board via ACME Probe1 [nrf52]`. -/
theorem C2_description_format (session : Session) (tt : String) (tb : Option String)
    (d : Option Delegate) (i : Bool) :
    Board.description ⟨session, tt, tb, d, i⟩ =
      "Generic board via " ++ session.probe.vendor_name ++ " " ++
        session.probe.product_name ++ " [" ++ tt ++ "]" ∧
    Board.description ⟨sess1, "nrf52", none, none, false⟩ =
      "Generic board via ACME Probe1 [nrf52]" :=
  ⟨rfl, by decide⟩

/-- C3 (counterexample): with the registry lacking `nrf52` and a managed
pack cache that answers only the exact query `nrf52`, constructing with
`NRF52` performs a managed-pack query with the original un-lowered string
`NRF52` (never with `nrf52`), its call trace differs from the `nrf52`
construction, and the two constructions yield different resolution
outcomes (success versus failure) — so resolution is not fully
case-insensitive and the identifier is not lower-cased before the
managed-pack query. -/
theorem C3_counterexample :
    ((Board.construct env1 sess1 (some "NRF52")).1 ≠
      (Board.construct env1 sess1 (some "nrf52")).1) ∧
    ConstructEvent.managedPackQuery "NRF52" ∈ (Board.construct env1 sess1 (some "NRF52")).1 ∧
    ConstructEvent.managedPackQuery "nrf52" ∉ (Board.construct env1 sess1 (some "NRF52")).1 ∧
    (Board.construct env1 sess1 (some "nrf52")).2 =
      Except.ok ⟨sess1, "nrf52", none, none, false⟩ ∧
    (Board.construct env1 sess1 (some "NRF52")).2 =
      Except.error (targetNotRecognizedMsg "nrf52") :=
  ⟨by decide, by decide, by decide, by rfl, by rfl⟩

/-- C3 (amended): every registry membership test and registry lookup of a
construction, and the stored `target_type`, use the lower-cased requested
identifier, but the managed/cached pack-source query is passed the
original requested string un-lowered. -/
theorem C3_case_normalization (env : Env) (session : Session) (s : String) :
    (∀ id, ConstructEvent.membershipCheck id ∈ (Board.construct env session (some s)).1 →
      id = pyLower s) ∧
    (∀ id, ConstructEvent.registryLookup id ∈ (Board.construct env session (some s)).1 →
      id = pyLower s) ∧
    (∀ id, ConstructEvent.managedPackQuery id ∈ (Board.construct env session (some s)).1 →
      id = s) ∧
    (∀ b, (Board.construct env session (some s)).2 = Except.ok b → b.target_type = pyLower s) := by
  refine ⟨?_, ?_, ?_, ?_⟩
  · intro id hid
    rcases session with ⟨⟨pk, tbo, ro⟩, pr, sd⟩
    simp only [Board.construct, targetDefault] at hid
    cases pk <;> split_ifs at hid <;> simp_all
  · intro id hid
    rcases session with ⟨⟨pk, tbo, ro⟩, pr, sd⟩
    simp only [Board.construct, targetDefault] at hid
    cases pk <;> split_ifs at hid <;> simp_all
  · intro id hid
    rcases session with ⟨⟨pk, tbo, ro⟩, pr, sd⟩
    simp only [Board.construct, targetDefault] at hid
    cases pk <;> split_ifs at hid <;> simp_all
  · intro b hb
    rw [construct_ok_fields env session (some s) b hb]
    rfl

/-- C3 (witness): the membership-check part of `C3_case_normalization`
applied to the concrete `NRF52` construction. -/
theorem C3_case_normalization_witness :
    ConstructEvent.membershipCheck "nrf52" ∈ (Board.construct env1 sess1 (some "NRF52")).1 ∧
    "nrf52" = pyLower "NRF52" :=
  ⟨by decide, (C3_case_normalization env1 sess1 "NRF52").1 "nrf52" (by decide)⟩

/-- C4 (counterexample): constructing with the empty string as requested
target type does not default to `cortex_m`: even with `cortex_m`
registered, the lookup uses the empty identifier, construction fails, and
the generic-target warning is never recorded. -/
theorem C4_counterexample :
    (Board.construct env1 sess1 (some "")).2 = Except.error (targetNotRecognizedMsg "") ∧
    ConstructEvent.registryLookup "" ∈ (Board.construct env1 sess1 (some "")).1 ∧
    ConstructEvent.registryLookup "cortex_m" ∉ (Board.construct env1 sess1 (some "")).1 ∧
    ((Board.construct env1 sess1 (some "")).1).count ConstructEvent.logGenericWarning = 0 :=
  ⟨by rfl, by decide, by decide, by decide⟩

/-- C4 (amended): only an absent (None) requested target type defaults to
the identifier `cortex_m`: every registry membership test and lookup then
uses `cortex_m`, a successful construction stores `cortex_m` and records
the generic-target warning exactly once, and a failed construction
records no warning. -/
theorem C4_default_and_warning (env : Env) (session : Session) :
    (∀ id, ConstructEvent.membershipCheck id ∈ (Board.construct env session none).1 →
      id = "cortex_m") ∧
    (∀ id, ConstructEvent.registryLookup id ∈ (Board.construct env session none).1 →
      id = "cortex_m") ∧
    (∀ b, (Board.construct env session none).2 = Except.ok b →
      b.target_type = "cortex_m" ∧
        ((Board.construct env session none).1).count ConstructEvent.logGenericWarning = 1) ∧
    (∀ e, (Board.construct env session none).2 = Except.error e →
      ((Board.construct env session none).1).count ConstructEvent.logGenericWarning = 0) := by
  have hc : pyLower (targetDefault none) = "cortex_m" := rfl
  refine ⟨?_, ?_, ?_, ?_⟩
  · intro id hid
    rcases session with ⟨⟨pk, tbo, ro⟩, pr, sd⟩
    simp only [Board.construct, hc] at hid
    cases pk <;> split_ifs at hid <;> simp_all
  · intro id hid
    rcases session with ⟨⟨pk, tbo, ro⟩, pr, sd⟩
    simp only [Board.construct, hc] at hid
    cases pk <;> split_ifs at hid <;> simp_all
  · intro b hb
    have hfields := construct_ok_fields env session none b hb
    constructor
    · rw [hfields]
      exact hc
    · rcases session with ⟨⟨pk, tbo, ro⟩, pr, sd⟩
      simp only [Board.construct, hc] at hb ⊢
      cases pk <;> split_ifs at hb ⊢ <;> simp_all
  · intro e he
    rcases session with ⟨⟨pk, tbo, ro⟩, pr, sd⟩
    simp only [Board.construct, hc] at he ⊢
    cases pk <;> split_ifs at he ⊢ <;> simp_all

/-- C4 (witness): the membership-check part of `C4_default_and_warning`
applied to a concrete construction with an absent target type. -/
theorem C4_default_and_warning_witness :
    ConstructEvent.membershipCheck "cortex_m" ∈ (Board.construct env1 sess1 none).1 ∧
    "cortex_m" = "cortex_m" :=
  ⟨by decide, (C4_default_and_warning env1 sess1).1 "cortex_m" (by decide)⟩

/-- C5: when the normalized identifier is absent from the registry after
both the explicit-pack and managed-pack sources have been consulted,
construction fails with the target-not-recognized error, the message
contains the identifier (in its normalized lower-case form, which for an
already-normalized request is the requested string verbatim), and no
board is produced. -/
theorem C5_unresolved_target_error (env : Env) (session : Session) (s : String)
    (h : pyLower s ∉ registryAfterManaged env session.options s) :
    (Board.construct env session (some s)).2 =
      Except.error (targetNotRecognizedMsg (pyLower s)) ∧
    (pyLower s).data <:+: (targetNotRecognizedMsg (pyLower s)).data ∧
    (∀ b, (Board.construct env session (some s)).2 ≠ Except.ok b) := by
  have h1 : (Board.construct env session (some s)).2 =
      Except.error (targetNotRecognizedMsg (pyLower s)) := by
    simp only [Board.construct, targetDefault]
    rw [if_neg h]
  refine ⟨h1, ?_, ?_⟩
  · refine ⟨("Target " ++ sq).data, (sq ++ " not recognized. Use the " ++ sq ++
      "pyocd list --targets" ++ sq ++ " command to see all available targets.").data, ?_⟩
    simp [targetNotRecognizedMsg, List.append_assoc]
  · intro b hb
    rw [h1] at hb
    simp at hb

/-- C5 (witness): `C5_unresolved_target_error` applied to a concrete
environment in which `nrf52` is resolvable by no source. -/
theorem C5_unresolved_target_error_witness :
    pyLower "NRF52" ∉ registryAfterManaged env1 sess1.options "NRF52" ∧
    (Board.construct env1 sess1 (some "NRF52")).2 =
      Except.error (targetNotRecognizedMsg (pyLower "NRF52")) :=
  ⟨by decide, (C5_unresolved_target_error env1 sess1 "NRF52" (by decide)).1⟩

/-- C6: in every `init()` trace the `will_connect` hook, when invoked,
occurs strictly before the target init step, and the `did_connect` hook,
when invoked, occurs strictly after it; and when the target init step
succeeds, `init()` raises exactly when a present hook raises — so a
delegate lacking either hook causes no error. -/
theorem C6_hook_order (ti : Bool) (b : Board) :
    (LifeEvent.willConnectCall ∈ (Board.init ti b).2.1 →
      LifeEvent.targetInitCall ∈ (Board.init ti b).2.1 →
      (Board.init ti b).2.1.indexOf LifeEvent.willConnectCall <
        (Board.init ti b).2.1.indexOf LifeEvent.targetInitCall) ∧
    (LifeEvent.didConnectCall ∈ (Board.init ti b).2.1 →
      LifeEvent.targetInitCall ∈ (Board.init ti b).2.1 ∧
        (Board.init ti b).2.1.indexOf LifeEvent.targetInitCall <
          (Board.init ti b).2.1.indexOf LifeEvent.didConnectCall) ∧
    (ti = false →
      (Board.init ti b).2.2 =
        (hasWill (effectiveDelegate b) && willRaises (effectiveDelegate b) ||
         hasDid (effectiveDelegate b) && didRaises (effectiveDelegate b))) := by
  refine ⟨?_, ?_, ?_⟩
  · rcases init_trace_cases ti b with h | h | h | h | h <;> rw [h] <;> decide
  · rcases init_trace_cases ti b with h | h | h | h | h <;> rw [h] <;> decide
  · intro hti
    subst hti
    exact init_raised_eq b

/-- C6 (witness): `C6_hook_order` applied to a concrete board whose
delegate exposes a raising `did_connect` hook. -/
theorem C6_hook_order_witness :
    (Board.init false boardD).2.1.indexOf LifeEvent.targetInitCall <
      (Board.init false boardD).2.1.indexOf LifeEvent.didConnectCall ∧
    (Board.init false boardD).2.2 =
      (hasWill (effectiveDelegate boardD) && willRaises (effectiveDelegate boardD) ||
       hasDid (effectiveDelegate boardD) && didRaises (effectiveDelegate boardD)) :=
  ⟨((C6_hook_order false boardD).2.1 (by decide)).2, (C6_hook_order false boardD).2.2 rfl⟩

/-- C7: when the disconnect step raises during `uninit()` of an
initialized board, `uninit()` logs the failure (after having invoked
`target.disconnect` with the configured resume flag) and returns without
raising. -/
theorem C7_disconnect_failure_contained (session : Session) (tt : String)
    (tb : Option String) (d : Option Delegate) :
    (Board.uninit true ⟨session, tt, tb, d, true⟩).2.2 = false ∧
    LifeEvent.logError ∈ (Board.uninit true ⟨session, tt, tb, d, true⟩).2.1 ∧
    LifeEvent.targetDisconnectCall (session.options.resume_on_disconnect.getD true) ∈
      (Board.uninit true ⟨session, tt, tb, d, true⟩).2.1 :=
  ⟨rfl, by simp [Board.uninit], by simp [Board.uninit]⟩

/-- C8: calling `uninit()` while the lifecycle flag is false performs no
target operation (the event trace is empty), raises no error, and leaves
the board state unchanged. -/
theorem C8_uninit_noop (session : Session) (tt : String) (tb : Option String)
    (d : Option Delegate) (disconnectRaises : Bool) :
    Board.uninit disconnectRaises ⟨session, tt, tb, d, false⟩ =
      (⟨session, tt, tb, d, false⟩, [], false) := by
  simp [Board.uninit]

/-- C9: when `target.disconnect` raises during `uninit()`, the lifecycle
flag remains true afterwards, so a subsequent `uninit()` call invokes the
disconnect operation again rather than being a no-op. -/
theorem C9_failed_disconnect_reattempted (session : Session) (tt : String)
    (tb : Option String) (d : Option Delegate) (dr2 : Bool) :
    (Board.uninit true ⟨session, tt, tb, d, true⟩).1.inited = true ∧
    LifeEvent.targetDisconnectCall (session.options.resume_on_disconnect.getD true) ∈
      (Board.uninit dr2 (Board.uninit true ⟨session, tt, tb, d, true⟩).1).2.1 := by
  refine ⟨rfl, ?_⟩
  cases dr2 <;> simp [Board.uninit]

/-- C10: when the target init step succeeds but the `did_connect` hook of
the effective delegate raises (and no `will_connect` hook raised first),
`init()` raises to the caller while the lifecycle flag has already been
set to true, leaving the board in the Ready state despite the surfaced
error. -/
theorem C10_did_connect_error_leaves_ready (b : Board)
    (hd : hasDid (effectiveDelegate b) = true)
    (hr : didRaises (effectiveDelegate b) = true)
    (hw : (hasWill (effectiveDelegate b) && willRaises (effectiveDelegate b)) = false) :
    (Board.init false b).2.2 = true ∧ (Board.init false b).1.inited = true ∧
    LifeEvent.targetInitCall ∈ (Board.init false b).2.1 := by
  refine ⟨?_, ?_, init_targetInit_mem b hw⟩
  · rw [init_raised_eq b, hw, hd, hr]
    decide
  · rw [init_inited_eq false b, hw]
    simp

/-- C10 (witness): `C10_did_connect_error_leaves_ready` applied to a
concrete board with a raising `did_connect` hook. -/
theorem C10_witness :
    hasDid (effectiveDelegate boardD) = true ∧
    didRaises (effectiveDelegate boardD) = true ∧
    (hasWill (effectiveDelegate boardD) && willRaises (effectiveDelegate boardD)) = false ∧
    ((Board.init false boardD).2.2 = true ∧ (Board.init false boardD).1.inited = true ∧
      LifeEvent.targetInitCall ∈ (Board.init false boardD).2.1) :=
  ⟨by decide, by decide, by decide,
    C10_did_connect_error_leaves_ready boardD (by decide) (by decide) (by decide)⟩

end PyOCD
